import Mathlib

/-!
Verification development for the Chandra RunPod deployment scripts.

Shallow embedding of:
  * `runpod_handler.py` — the serverless OCR handler (input dispatch,
    PDF page-range forwarding, per-file decode loop, inference loop,
    result serialization, top-level exception wrapping);
  * `deploy_runpod.py` — the GraphQL deployment manager
    (`_graphql_query`, `create_template`, `create_endpoint`,
    `update_endpoint`, `find_endpoint_by_name`, `deploy`);
  * `client_pdf_ocr_example.py` — the submit/poll/timeout client loop.

Python conventions used throughout the embedding: a dict field that may be
absent is an `Option`; a raised exception is the `Except.error` branch; the
truthiness of a Python value (`if page_range`, `if not template_id`,
`if not endpoint_data`) is modelled explicitly where the code relies on it.
-/

namespace Chandra

/-- A Python exception value: `str(e)` and `traceback.format_exc()`. -/
structure PyErr where
  msg : String
  tb : String
  deriving Repr, DecidableEq

/-- Abstract page image (PIL image); its content is irrelevant to the
properties proved here, only identity/count matters. -/
structure Img where
  id : Nat
  deriving Repr, DecidableEq

/-! ## `process_pdf_bytes` — page-range forwarding (runpod_handler.py:45-61)

The handler receives `page_range` from the job input as either absent
(`None`, modelled `none`) or a list of 0-indexed pages.  The code forwards
`page_range if page_range else None` to `load_pdf_images`: Python
truthiness, under which the empty list is falsy. -/

/-- The argument actually passed to `load_pdf_images` by
`process_pdf_bytes`: `page_range if page_range else None`
(runpod_handler.py:56).  An empty list is falsy in Python, so it is
coerced to `None`. -/
def pageRangeArg (page_range : Option (List Nat)) : Option (List Nat) :=
  match page_range with
  | none => none
  | some [] => none
  | some l => some l

/-- Modelled from the spec: `chandra.input.load_pdf_images` is an external
library function not in this repository.  Per the spec, for a document with
`numPages` pages it returns all pages (0-indexed, in order) when the range
is `None`, and exactly the requested pages, in the given order, when a list
is supplied (so an empty list yields zero pages). -/
def load_pdf_images (numPages : Nat) (page_range : Option (List Nat)) : List Nat :=
  match page_range with
  | none => List.range numPages
  | some l => l

/-- Pages returned by `process_pdf_bytes` for a `numPages`-page PDF when
the handler-level `page_range` is as given (runpod_handler.py:45-61). -/
def process_pdf_pages (numPages : Nat) (page_range : Option (List Nat)) : List Nat :=
  load_pdf_images numPages (pageRangeArg page_range)

/-! ## `process_pdf_bytes` — temporary-file discipline (runpod_handler.py:45-61)

The code writes the PDF bytes to a fresh `NamedTemporaryFile(delete=False)`,
runs `load_pdf_images` in a `try`, and in the `finally` block unlinks the
temporary path if it still exists.  We model the local filesystem as the
list of existing file paths, and the rasterizer call as an arbitrary
outcome (the images on success, an exception on failure). -/

/-- One step of `process_pdf_bytes` over an explicit filesystem:
`fs` the files existing before the call, `tmp_path` the fresh temporary
name chosen by `NamedTemporaryFile`, and `loader` the outcome of the
`load_pdf_images` call.  Returns the call's outcome (the exception
propagates after the `finally` block runs) together with the filesystem
after the call. -/
def process_pdf_bytes_fs (fs : List String) (tmp_path : String)
    (loader : Except PyErr (List Img)) :
    Except PyErr (List Img) × List String :=
  let fs1 := tmp_path :: fs
  let fs2 := if tmp_path ∈ fs1 then fs1.erase tmp_path else fs1
  (loader, fs2)

/-! ## Submit/poll/timeout client loop (client_pdf_ocr_example.py:102-177)

```
start_time = time.time()
for iteration in range(150):
    elapsed = int(time.time() - start_time)
    response = requests.get(status_url, ...)
    status = result.get("status")
    if status == "COMPLETED":  ...; break
    elif status == "FAILED":   ...; break
    elif status == "IN_PROGRESS": ...
    elif status == "IN_QUEUE":    ...
    if elapsed > 300: break
    time.sleep(2)
```

The loop is modelled as a function of the status sequence returned by the
polls (`poll k` is the status reported by the `k`-th poll, 0-based) and of
the elapsed-time sequence (`elapsed k` is `int(time.time() - start_time)`
sampled at the top of iteration `k`; there is a single `start_time`, so
`elapsed` is one fixed function of the iteration index).  The second
component of the result counts the status queries issued. -/

/-- Remote job status vocabulary as compared against in the loop. -/
inductive JobStatus where
  | completed
  | failed
  | in_progress
  | in_queue
  | other
  deriving Repr, DecidableEq

/-- How the polling loop ends. -/
inductive PollOutcome where
  | completed
  | failed
  | timedOut
  | exhausted
  deriving Repr, DecidableEq

/-- A status on which the loop breaks as terminal. -/
def isTerminal : JobStatus → Bool
  | .completed => true
  | .failed => true
  | _ => false

/-- `elapsed > 300` break threshold (seconds). -/
def max_wait : Nat := 300

/-- `range(150)` iteration bound. -/
def max_iterations : Nat := 150

/-- `time.sleep(2)` between polls (seconds). -/
def poll_interval : Nat := 2

/-- The loop body from iteration `k` with `rem` iterations of `range(150)`
remaining.  Returns the outcome and the number of status queries issued. -/
def poll_loop_go (poll : Nat → JobStatus) (elapsed : Nat → Nat) :
    Nat → Nat → PollOutcome × Nat
  | _, 0 => (.exhausted, 0)
  | k, rem + 1 =>
    let s := poll k
    if s = .completed then (.completed, 1)
    else if s = .failed then (.failed, 1)
    else if max_wait < elapsed k then (.timedOut, 1)
    else
      let r := poll_loop_go poll elapsed (k + 1) rem
      (r.1, r.2 + 1)

/-- The whole STEP-3 monitoring loop of `client_pdf_ocr_example.py`. -/
def awaitCompletion (poll : Nat → JobStatus) (elapsed : Nat → Nat) :
    PollOutcome × Nat :=
  poll_loop_go poll elapsed 0 max_iterations

/-- The elapsed-time sequence of the reference execution in which each
poll is instantaneous and each iteration sleeps exactly `poll_interval`
seconds: at the top of iteration `k`, `elapsed = 2 * k`. -/
def idealElapsed (k : Nat) : Nat := poll_interval * k

/-! ## Deployment manager, response handling (deploy_runpod.py:26-206)

The remote GraphQL response is modelled by the fields the code actually
reads: `result.get("data", {}).get("saveTemplateServerless", {}).get("id")`
and `result.get("data", {}).get("saveEndpoint", {})`.  A missing key (or a
JSON `null`) is `none`; `requests.Response.raise_for_status` raises for
status codes `>= 400`. -/

/-- `data.saveTemplateServerless` object: the code only reads `id`. -/
structure TemplateRespData where
  id : Option String
  deriving Repr, DecidableEq

/-- `data.saveEndpoint` object: the code reads `id` (and passes the rest
through). -/
structure EndpointRespData where
  id : Option String
  deriving Repr, DecidableEq

/-- The `data` object of a GraphQL response body. -/
structure GqlData where
  saveTemplateServerless : Option TemplateRespData
  saveEndpoint : Option EndpointRespData
  deriving Repr, DecidableEq

/-- A GraphQL response body (`response.json()`). -/
structure GqlBody where
  data : Option GqlData
  deriving Repr, DecidableEq

/-- An HTTP response to a GraphQL POST. -/
structure HttpResponse where
  status_code : Nat
  body : GqlBody
  deriving Repr, DecidableEq

/-- `RunPodDeployer._graphql_query` (deploy_runpod.py:26-38): posts the
query and calls `response.raise_for_status()`, which raises an `HTTPError`
for any status code `>= 400`; otherwise returns `response.json()`. -/
def graphql_query (resp : HttpResponse) : Except PyErr GqlBody :=
  if 400 ≤ resp.status_code then
    .error ⟨"HTTPError: " ++ toString resp.status_code,
            "Traceback: requests.exceptions.HTTPError"⟩
  else
    .ok resp.body

/-- `RunPodDeployer.create_template` response handling
(deploy_runpod.py:106-114): extracts
`data.saveTemplateServerless.id` with `{}` defaults at each level and
raises `Exception` when the result is falsy (`if not template_id`), i.e.
missing or the empty string. -/
def create_template_resp (resp : HttpResponse) : Except PyErr String :=
  match graphql_query resp with
  | .error e => .error e
  | .ok result =>
    match (result.data.bind (·.saveTemplateServerless)).bind (·.id) with
    | none => .error ⟨"Failed to create template", "Traceback: Exception"⟩
    | some tid =>
      if tid = "" then .error ⟨"Failed to create template", "Traceback: Exception"⟩
      else .ok tid

/-- `RunPodDeployer.create_endpoint` response handling
(deploy_runpod.py:155-166): extracts `data.saveEndpoint` with `{}`
defaults and raises `Exception` when it is falsy (`if not endpoint_data`),
i.e. missing/null/empty. -/
def create_endpoint_resp (resp : HttpResponse) : Except PyErr EndpointRespData :=
  match graphql_query resp with
  | .error e => .error e
  | .ok result =>
    match result.data.bind (·.saveEndpoint) with
    | none => .error ⟨"Failed to create endpoint", "Traceback: Exception"⟩
    | some endpoint_data => .ok endpoint_data

/-- `RunPodDeployer.update_endpoint` response handling
(deploy_runpod.py:203-206): returns
`result.get("data", {}).get("saveEndpoint", {})` directly, with NO check:
a missing `saveEndpoint` is returned as the `{}` default (`none` here)
without raising. -/
def update_endpoint_resp (resp : HttpResponse) :
    Except PyErr (Option EndpointRespData) :=
  match graphql_query resp with
  | .error e => .error e
  | .ok result => .ok (result.data.bind (·.saveEndpoint))

/-! ## Deployment manager, deploy orchestration (deploy_runpod.py:60-66, 208-325)

For the two-deploys property the remote management API is modelled as a
state (the endpoints and templates that exist remotely), with the remote
calls assumed to succeed; remote-assigned identifiers are modelled as
fresh strings derived from the state.  `find_endpoint_by_name` is the
linear scan of `list_endpoints()` output. -/

/-- A serverless endpoint as the deployer sees it. -/
structure Endpoint where
  id : String
  name : String
  templateId : String
  workersMax : Nat
  deriving Repr, DecidableEq

/-- A serverless template resource. -/
structure Template where
  id : String
  name : String
  imageName : String
  deriving Repr, DecidableEq

/-- The remote account state visible to the deployer. -/
structure RemoteState where
  endpoints : List Endpoint
  templates : List Template
  deriving Repr, DecidableEq

/-- `RunPodDeployer.find_endpoint_by_name` (deploy_runpod.py:60-66):
first endpoint of `list_endpoints()` with the given name, else `None`. -/
def find_endpoint_by_name (endpoints : List Endpoint) (name : String) :
    Option Endpoint :=
  match endpoints with
  | [] => none
  | e :: es => if e.name = name then some e else find_endpoint_by_name es name

/-- Fresh remote-assigned template id (opaque to the deployer). -/
def fresh_template_id (st : RemoteState) : String :=
  "tpl-" ++ toString st.templates.length

/-- `RunPodDeployer.create_template` as a remote-state transition
(successful `saveTemplateServerless` mutation): a new template with the
given name and image is created and its remote-assigned id returned. -/
def create_template (st : RemoteState) (name image_name : String) :
    String × RemoteState :=
  let tid := fresh_template_id st
  (tid, { st with templates := st.templates ++ [⟨tid, name, image_name⟩] })

/-- Fresh remote-assigned endpoint id. -/
def fresh_endpoint_id (st : RemoteState) : String :=
  "ep-" ++ toString st.endpoints.length

/-- `RunPodDeployer.create_endpoint` as a remote-state transition
(successful `saveEndpoint` mutation creating a new endpoint). -/
def create_endpoint (st : RemoteState) (name template_id : String)
    (workers_max : Nat) : Endpoint × RemoteState :=
  let ep : Endpoint := ⟨fresh_endpoint_id st, name, template_id, workers_max⟩
  (ep, { st with endpoints := st.endpoints ++ [ep] })

/-- `RunPodDeployer.update_endpoint` as a remote-state transition
(successful `saveEndpoint` mutation on an existing id): sets
`templateId` and `workersMax` of the endpoint with the given id; the
endpoint's id and name are not touched (deploy passes neither a new
name nor a new id). -/
def update_endpoint (st : RemoteState) (endpoint_id template_id : String)
    (workers_max : Nat) : RemoteState :=
  { st with
    endpoints := st.endpoints.map fun e =>
      if e.id = endpoint_id then
        { e with templateId := template_id, workersMax := workers_max }
      else e }

/-- The dict returned by `RunPodDeployer.deploy`; `updated`/`created`
keys are present only on the corresponding branches. -/
structure DeployResult where
  id : String
  name : String
  url : String
  updated : Option Bool
  created : Option Bool
  deriving Repr, DecidableEq

/-- `https://api.runpod.ai/v2/{endpoint_id}`. -/
def runpod_url (endpoint_id : String) : String :=
  "https://api.runpod.ai/v2/" ++ endpoint_id

/-- `RunPodDeployer.deploy` (deploy_runpod.py:208-325), remote calls
assumed successful; `now` is `int(time.time())` at the call. -/
def deploy (st : RemoteState) (endpoint_name docker_image : String)
    (workers_max : Nat) (update_if_exists : Bool) (now : Nat) :
    DeployResult × RemoteState :=
  match find_endpoint_by_name st.endpoints endpoint_name with
  | some existing_endpoint =>
    let endpoint_id := existing_endpoint.id
    if update_if_exists then
      let template_name := endpoint_name ++ "-template-" ++ toString now
      let p := create_template st template_name docker_image
      let st2 := update_endpoint p.2 endpoint_id p.1 workers_max
      ({ id := endpoint_id, name := endpoint_name,
         url := runpod_url endpoint_id,
         updated := some true, created := none }, st2)
    else
      ({ id := endpoint_id, name := endpoint_name,
         url := runpod_url endpoint_id,
         updated := some false, created := none }, st)
  | none =>
    let template_name := endpoint_name ++ "-template"
    let p := create_template st template_name docker_image
    let q := create_endpoint p.2 endpoint_name p.1 workers_max
    ({ id := q.1.id, name := endpoint_name, url := runpod_url q.1.id,
       updated := none, created := some true }, q.2)

/-! ## RunPod handler (runpod_handler.py:104-253)

The handler is modelled as a function of the job input (the `"input"` dict
of the event, absent fields being `none`) and of two oracles standing for
the external effects:

  * `decode f pr` — the outcome of `process_file_input(file_data,
    page_range)` on file `f` (download/base64-decode, type detection, PDF
    rasterization); an exception there is caught inside the per-file loop;
  * `gen img` — the outcome of `model.generate([batch_item], ...)` on one
    page image (the list of `BatchOutputItem`s, or an exception, which is
    caught only by the handler's outer `try`).

The returned dict is modelled by `HandlerResult`, an `Option` per key
that can be present. -/

/-- Opaque file input value (URL or base64 string). -/
structure FileData where
  id : Nat
  deriving Repr, DecidableEq

/-- The job input dict; `none` models an absent key. Optional generation
parameters other than `page_range` are forwarded unchanged to the model
oracle and are not modelled individually. -/
structure JobInput where
  file : Option FileData
  files : Option (List FileData)
  image : Option FileData
  images : Option (List FileData)
  page_range : Option (List Nat)
  deriving Repr, DecidableEq

/-- `event.get("input", {})` default. -/
def emptyJobInput : JobInput :=
  { file := none, files := none, image := none, images := none,
    page_range := none }

/-- One OCR result for a page (`BatchOutputItem`), reduced to the fields
the serialization loop reads. -/
structure PageResult where
  markdown : String
  token_count : Nat
  error : Bool
  deriving Repr, DecidableEq

/-- One entry of the output `"results"` list. -/
structure PageOut where
  page_number : Nat
  markdown : String
  token_count : Nat
  error : Bool
  deriving Repr, DecidableEq

/-- The dict returned by `handler`; `none` models an absent key. -/
structure HandlerResult where
  results : Option (List PageOut)
  total_pages : Option Nat
  total_tokens : Option Nat
  error : Option String
  traceback : Option String
  deriving Repr, DecidableEq

/-- The validation-error message (runpod_handler.py:160-162). -/
def noFileMsg : String :=
  "No 'file', 'files', 'image', or 'images' field provided in input"

/-- Input-source dispatch (runpod_handler.py:151-158): ordered
`if "file" in ... elif "files" in ... elif "image" in ... elif "images"
in ...`, first match wins; `none` when no recognized field is present. -/
def files_data (job_input : JobInput) : Option (List FileData) :=
  match job_input.file with
  | some f => some [f]
  | none =>
    match job_input.files with
    | some fs => some fs
    | none =>
      match job_input.image with
      | some f => some [f]
      | none =>
        match job_input.images with
        | some fs => some fs
        | none => none

/-- The per-item decode loop shared by both handlers
(runpod_handler.py:176-184, runpod_handler_simplified.py:170-178), with
`i` the 0-based `enumerate` index of the first item of the remaining
list: each item is decoded inside a `try`; on the first exception the
loop returns the batch-level error message `label ++ (i+1) ++ ": " ++
str(e)` naming the 1-based index, otherwise the decoded image lists are
concatenated in order and the loop continues. -/
def load_inputs_from (label : String) (step : FileData → Except PyErr (List Img)) :
    Nat → List FileData → Except String (List Img)
  | _, [] => .ok []
  | i, f :: fs =>
    match step f with
    | .error e =>
      .error (label ++ toString (i + 1) ++ ": " ++ e.msg)
    | .ok images =>
      match load_inputs_from label step (i + 1) fs with
      | .error m => .error m
      | .ok rest => .ok (images ++ rest)

/-- The per-file loop of `runpod_handler.py` (lines 176-184):
`process_file_input` may return several images per file
(`all_images.extend(images)`). -/
def load_files_from (decode : FileData → Except PyErr (List Img)) :
    Nat → List FileData → Except String (List Img) :=
  load_inputs_from ("Failed to process file ") decode

/-- The per-image loop of `runpod_handler_simplified.py` (lines 170-178):
`process_image_input` returns exactly one image per item
(`all_images.append(pil_image)`). -/
def load_images_from (decode : FileData → Except PyErr Img) :
    Nat → List FileData → Except String (List Img) :=
  load_inputs_from ("Failed to process image ") (fun d => (decode d).map (fun img => [img]))

/-- `IndexError` raised by `page_results[0]` (runpod_handler.py:213) when
`model.generate` returns an empty list. -/
def indexErr : PyErr :=
  ⟨"list index out of range", "Traceback: IndexError: list index out of range"⟩

/-- The inference loop (runpod_handler.py:198-213): one `model.generate`
call per image, results concatenated by `results.extend(page_results)`;
any exception propagates to the handler's outer `try`
(including the `IndexError` from the progress print when a call returns
an empty list). -/
def run_inference (gen : Img → Except PyErr (List PageResult)) :
    List Img → Except PyErr (List PageResult)
  | [] => .ok []
  | img :: imgs =>
    match gen img with
    | .error e => .error e
    | .ok [] => .error indexErr
    | .ok page_results =>
      match run_inference gen imgs with
      | .error e => .error e
      | .ok rest => .ok (page_results ++ rest)

/-- The serialization loop (runpod_handler.py:216-236) from `enumerate`
index `idx`: each result dict carries `page_number = idx + 1` and copies
the model result's fields. -/
def serialize_from : Nat → List PageResult → List PageOut
  | _, [] => []
  | idx, r :: rs =>
    { page_number := idx + 1, markdown := r.markdown,
      token_count := r.token_count, error := r.error } :: serialize_from (idx + 1) rs

/-- Body of the handler's outer `try` (runpod_handler.py:146-244): the
three early `return`s (validation error, per-file failure, success dict)
are `.ok`; an uncaught exception is `.error`. -/
def handler_try (decode : FileData → Option (List Nat) → Except PyErr (List Img))
    (gen : Img → Except PyErr (List PageResult))
    (input? : Option JobInput) : Except PyErr HandlerResult :=
  let job_input := input?.getD emptyJobInput
  match files_data job_input with
  | none =>
    .ok { results := none, total_pages := none, total_tokens := none,
          error := some noFileMsg, traceback := none }
  | some fd =>
    let page_range := job_input.page_range
    match load_files_from (fun f => decode f page_range) 0 fd with
    | .error m =>
      .ok { results := none, total_pages := none, total_tokens := none,
            error := some m, traceback := none }
    | .ok all_images =>
      match run_inference gen all_images with
      | .error e => .error e
      | .ok results =>
        let output_results := serialize_from 0 results
        .ok { results := some output_results,
              total_pages := some output_results.length,
              total_tokens := some (output_results.map (·.token_count)).sum,
              error := none, traceback := none }

/-- `handler` (runpod_handler.py:104-253): the outer `except Exception`
returns `{"error": str(e), "traceback": traceback.format_exc()}`. -/
def handler (decode : FileData → Option (List Nat) → Except PyErr (List Img))
    (gen : Img → Except PyErr (List PageResult))
    (input? : Option JobInput) : HandlerResult :=
  match handler_try decode gen input? with
  | .ok r => r
  | .error e =>
    { results := none, total_pages := none, total_tokens := none,
      error := some e.msg, traceback := some e.tb }

/-! ## Simplified image-only handler (runpod_handler_simplified.py:101-247)

Same structure as `handler`, but the input dispatch recognizes only
`image`/`images`, each item decodes to exactly one image, and the
validation message differs. -/

/-- The simplified handler's input dict (only `image`/`images` are read). -/
structure JobInputS where
  image : Option FileData
  images : Option (List FileData)
  deriving Repr, DecidableEq

/-- `event.get("input", {})` default for the simplified handler. -/
def emptyJobInputS : JobInputS := { image := none, images := none }

/-- The validation-error message (runpod_handler_simplified.py:153-157). -/
def noImageMsg : String :=
  "No 'image' or 'images' field provided in input. This handler only accepts images. For PDFs, convert to images client-side using chandra.input.load_pdf_images() first."

/-- Input dispatch of the simplified handler
(runpod_handler_simplified.py:148-157). -/
def images_data (job_input : JobInputS) : Option (List FileData) :=
  match job_input.image with
  | some f => some [f]
  | none =>
    match job_input.images with
    | some fs => some fs
    | none => none

/-- Body of the simplified handler's outer `try`
(runpod_handler_simplified.py:143-238). -/
def handler_simplified_try (decode : FileData → Except PyErr Img)
    (gen : Img → Except PyErr (List PageResult))
    (input? : Option JobInputS) : Except PyErr HandlerResult :=
  let job_input := input?.getD emptyJobInputS
  match images_data job_input with
  | none =>
    .ok { results := none, total_pages := none, total_tokens := none,
          error := some noImageMsg, traceback := none }
  | some ds =>
    match load_images_from decode 0 ds with
    | .error m =>
      .ok { results := none, total_pages := none, total_tokens := none,
            error := some m, traceback := none }
    | .ok all_images =>
      match run_inference gen all_images with
      | .error e => .error e
      | .ok results =>
        let output_results := serialize_from 0 results
        .ok { results := some output_results,
              total_pages := some output_results.length,
              total_tokens := some (output_results.map (·.token_count)).sum,
              error := none, traceback := none }

/-- `handler` of `runpod_handler_simplified.py` (lines 101-247). -/
def handler_simplified (decode : FileData → Except PyErr Img)
    (gen : Img → Except PyErr (List PageResult))
    (input? : Option JobInputS) : HandlerResult :=
  match handler_simplified_try decode gen input? with
  | .ok r => r
  | .error e =>
    { results := none, total_pages := none, total_tokens := none,
      error := some e.msg, traceback := some e.tb }

/-! # Theorems -/

/-! ## C1 — page-range semantics

The claim states that an explicit `[]` yields zero pages and that the
subset passed to the rasterizer is `[]` when the caller supplied `[]`.
The code forwards `page_range if page_range else None`
(runpod_handler.py:56): Python truthiness makes the empty list falsy, so
an explicit `[]` is coerced to `None` and all pages are returned. -/

/-- C1, counterexample: for a 2-page PDF with caller-supplied
`page_range = []`, `process_pdf_bytes` passes `None` (not `[]`) to
`load_pdf_images` and returns all pages rather than zero pages, refuting
the claim as stated. -/
theorem C1_counterexample :
    pageRangeArg (some []) = none ∧
    process_pdf_pages 2 (some []) = [0, 1] ∧
    process_pdf_pages 2 (some []) ≠ [] := by
  decide

/-- C1, amended: an absent/`None` page range passes `None` to the
rasterizer and yields all pages; an explicit `[]` is coerced to `None`
by the truthiness test and likewise yields all pages (not zero); a
nonempty page range is passed through unchanged and yields exactly the
requested pages in order. -/
theorem C1_page_range_forwarding :
    (∀ n, process_pdf_pages n none = List.range n) ∧
    (∀ n, process_pdf_pages n (some []) = List.range n) ∧
    (∀ n a l, process_pdf_pages n (some (a :: l)) = a :: l) ∧
    pageRangeArg none = none ∧
    pageRangeArg (some []) = none ∧
    (∀ a l, pageRangeArg (some (a :: l)) = some (a :: l)) :=
  ⟨fun _ => rfl, fun _ => rfl, fun _ _ _ => rfl, rfl, rfl, fun _ _ => rfl⟩

/-! ## C8 — temporary-file cleanup in `process_pdf_bytes` -/

/-- C8: for a fresh temporary path, `process_pdf_bytes` leaves the
filesystem exactly as it found it — the temporary decoded PDF is removed
by the `finally` block on the success path and on the failure path alike
(the statement quantifies over every outcome `loader` of the rasterizer
call, including exceptions, which propagate only after cleanup). -/
theorem C8_tmp_file_removed (fs : List String) (tmp_path : String)
    (loader : Except PyErr (List Img)) (hfresh : tmp_path ∉ fs) :
    (process_pdf_bytes_fs fs tmp_path loader).2 = fs ∧
    tmp_path ∉ (process_pdf_bytes_fs fs tmp_path loader).2 ∧
    (process_pdf_bytes_fs fs tmp_path loader).1 = loader := by
  refine ⟨?_, ?_, rfl⟩ <;>
    simp [process_pdf_bytes_fs, List.erase_cons_head, hfresh]

/-- C8 witness: concrete run on a one-file filesystem, for both a
successful rasterization and a raising one. -/
theorem C8_tmp_file_removed_witness :
    ((process_pdf_bytes_fs ["keep.txt"] "tmp123.pdf" (.ok [⟨0⟩])).2 = ["keep.txt"] ∧
     "tmp123.pdf" ∉ (process_pdf_bytes_fs ["keep.txt"] "tmp123.pdf" (.ok [⟨0⟩])).2 ∧
     (process_pdf_bytes_fs ["keep.txt"] "tmp123.pdf" (.ok [⟨0⟩])).1 = .ok [⟨0⟩]) ∧
    ((process_pdf_bytes_fs ["keep.txt"] "tmp123.pdf"
        (.error ⟨"bad pdf", "tb"⟩)).2 = ["keep.txt"]) :=
  ⟨C8_tmp_file_removed ["keep.txt"] "tmp123.pdf" (.ok [⟨0⟩]) (by simp),
   (C8_tmp_file_removed ["keep.txt"] "tmp123.pdf"
      (.error ⟨"bad pdf", "tb"⟩) (by simp)).1⟩

/-! ## Polling-loop lemmas -/

theorem isTerminal_eq_false_iff (s : JobStatus) :
    isTerminal s = false ↔ s ≠ .completed ∧ s ≠ .failed := by
  cases s <;> simp [isTerminal]

/-- Unfolding equation for the successor case of the loop. -/
theorem poll_loop_go_succ (poll : Nat → JobStatus) (elapsed : Nat → Nat)
    (k rem : Nat) :
    poll_loop_go poll elapsed k (rem + 1) =
      (if poll k = JobStatus.completed then (PollOutcome.completed, 1)
       else if poll k = JobStatus.failed then (PollOutcome.failed, 1)
       else if max_wait < elapsed k then (PollOutcome.timedOut, 1)
       else ((poll_loop_go poll elapsed (k + 1) rem).1,
             (poll_loop_go poll elapsed (k + 1) rem).2 + 1)) := rfl

theorem poll_loop_go_count_le (poll : Nat → JobStatus) (elapsed : Nat → Nat) :
    ∀ (rem k : Nat), (poll_loop_go poll elapsed k rem).2 ≤ rem := by
  intro rem
  induction rem with
  | zero => intro k; simp [poll_loop_go]
  | succ n ih =>
    intro k
    rw [poll_loop_go_succ]
    split_ifs <;> simp
    exact ih (k + 1)

/-- Stepping past one non-terminal, non-timed-out iteration. -/
theorem poll_loop_go_step (poll : Nat → JobStatus) (elapsed : Nat → Nat)
    (k rem : Nat) (hterm : isTerminal (poll k) = false)
    (htime : elapsed k ≤ max_wait) :
    poll_loop_go poll elapsed k (rem + 1) =
      ((poll_loop_go poll elapsed (k + 1) rem).1,
       (poll_loop_go poll elapsed (k + 1) rem).2 + 1) := by
  obtain ⟨h1, h2⟩ := (isTerminal_eq_false_iff (poll k)).mp hterm
  rw [poll_loop_go_succ, if_neg h1, if_neg h2,
      if_neg (by omega : ¬ max_wait < elapsed k)]

/-- Skipping a run of non-terminal, non-timed-out iterations. -/
theorem poll_loop_go_skip (poll : Nat → JobStatus) (elapsed : Nat → Nat) :
    ∀ (m k rem : Nat), m ≤ rem →
    (∀ j, j < m → isTerminal (poll (k + j)) = false ∧ elapsed (k + j) ≤ max_wait) →
    poll_loop_go poll elapsed k rem =
      ((poll_loop_go poll elapsed (k + m) (rem - m)).1,
       (poll_loop_go poll elapsed (k + m) (rem - m)).2 + m) := by
  intro m
  induction m with
  | zero => intro k rem _ _; simp
  | succ p ih =>
    intro k rem hle hrun
    obtain ⟨rem', rfl⟩ : ∃ rem', rem = rem' + 1 :=
      ⟨rem - 1, by omega⟩
    rw [poll_loop_go_step poll elapsed k rem'
          (by simpa using (hrun 0 (by omega)).1)
          (by simpa using (hrun 0 (by omega)).2)]
    rw [ih (k + 1) rem' (by omega)
          (fun j hj => by
            have := hrun (j + 1) (by omega)
            constructor
            · simpa [Nat.add_assoc, Nat.add_comm 1 j] using this.1
            · simpa [Nat.add_assoc, Nat.add_comm 1 j] using this.2)]
    rw [show k + 1 + p = k + (p + 1) by omega,
        show rem' - p = rem' + 1 - (p + 1) by omega]
    exact Prod.ext_iff.mpr ⟨rfl, by dsimp only; omega⟩

/-! ## C3 — bounded polling with a single timeout clock -/

/-- C3: (i) across every poll-status sequence and every elapsed-time
sequence, the monitoring loop issues at most 150 status queries;
(ii) if the first `k` polls are non-terminal with elapsed times within
`max_wait`, and at iteration `k < 150` the poll is again non-terminal but
the elapsed time — measured by the one fixed `elapsed` sequence derived
from the single `start_time`, which no poll result resets — now exceeds
300, the loop stops right there with exactly `k + 1` polls;
(iii) in the reference execution (instant polls, exactly 2 seconds of
sleep per iteration) a job that never reaches a terminal state is polled
exactly 150 times and the loop then exhausts its iteration range. -/
theorem C3_polling_bounded_timeout :
    (∀ (poll : Nat → JobStatus) (elapsed : Nat → Nat),
      (awaitCompletion poll elapsed).2 ≤ max_iterations) ∧
    (∀ (poll : Nat → JobStatus) (elapsed : Nat → Nat) (k : Nat),
      k < max_iterations →
      (∀ j, j < k → isTerminal (poll j) = false ∧ elapsed j ≤ max_wait) →
      isTerminal (poll k) = false →
      max_wait < elapsed k →
      awaitCompletion poll elapsed = (.timedOut, k + 1)) ∧
    awaitCompletion (fun _ => JobStatus.in_progress) idealElapsed =
      (.exhausted, max_iterations) := by
  refine ⟨fun poll elapsed => poll_loop_go_count_le poll elapsed max_iterations 0,
          ?_, ?_⟩
  · intro poll elapsed k hk hrun hterm htime
    unfold awaitCompletion
    rw [poll_loop_go_skip poll elapsed k 0 max_iterations (by omega)
          (fun j hj => by simpa using hrun j hj)]
    simp only [Nat.zero_add]
    obtain ⟨rem', hrem⟩ : ∃ rem', max_iterations - k = rem' + 1 :=
      ⟨max_iterations - k - 1, by omega⟩
    obtain ⟨h1, h2⟩ := (isTerminal_eq_false_iff (poll k)).mp hterm
    rw [hrem, poll_loop_go_succ, if_neg h1, if_neg h2, if_pos htime]
    exact Prod.ext_iff.mpr ⟨rfl, by dsimp only; omega⟩
  · unfold awaitCompletion
    rw [poll_loop_go_skip (fun _ => JobStatus.in_progress) idealElapsed
          max_iterations 0 max_iterations le_rfl
          (fun j hj => ⟨rfl, by
            simp only [idealElapsed, poll_interval, max_wait]
            simp only [max_iterations] at hj
            omega⟩)]
    simp [poll_loop_go]

/-- C3 witness: a run whose clock jumps past 300 seconds at the third
iteration while the job is still in progress stops after exactly 3 polls
with a timeout; and the reference never-terminal run is polled exactly
150 times. -/
theorem C3_polling_bounded_timeout_witness :
    awaitCompletion (fun _ => JobStatus.in_progress) (fun j => 151 * j) =
      (.timedOut, 3) ∧
    awaitCompletion (fun _ => JobStatus.in_progress) idealElapsed =
      (.exhausted, max_iterations) :=
  ⟨C3_polling_bounded_timeout.2.1 (fun _ => JobStatus.in_progress)
      (fun j => 151 * j) 2 (by decide)
      (fun j hj => ⟨rfl, by simp only [max_wait]; omega⟩) rfl (by decide),
   C3_polling_bounded_timeout.2.2⟩

/-! ## C4 — terminal statuses stop the loop immediately -/

/-- C4: if the first `k` polls are non-terminal (with the timeout not yet
expired, else the loop would already have stopped) and the poll at
iteration `k < 150` reports COMPLETED, the loop ends with outcome
`completed` after exactly `k + 1` status queries — no further polls; the
same with FAILED, with no retry.  The terminal test precedes the timeout
test, so no bound on `elapsed k` itself is needed. -/
theorem C4_terminal_stops_polling :
    (∀ (poll : Nat → JobStatus) (elapsed : Nat → Nat) (k : Nat),
      k < max_iterations →
      (∀ j, j < k → isTerminal (poll j) = false ∧ elapsed j ≤ max_wait) →
      poll k = .completed →
      awaitCompletion poll elapsed = (.completed, k + 1)) ∧
    (∀ (poll : Nat → JobStatus) (elapsed : Nat → Nat) (k : Nat),
      k < max_iterations →
      (∀ j, j < k → isTerminal (poll j) = false ∧ elapsed j ≤ max_wait) →
      poll k = .failed →
      awaitCompletion poll elapsed = (.failed, k + 1)) := by
  constructor <;>
  · intro poll elapsed k hk hrun hterm
    unfold awaitCompletion
    rw [poll_loop_go_skip poll elapsed k 0 max_iterations (by omega)
          (fun j hj => by simpa using hrun j hj)]
    simp only [Nat.zero_add]
    obtain ⟨rem', hrem⟩ : ∃ rem', max_iterations - k = rem' + 1 :=
      ⟨max_iterations - k - 1, by omega⟩
    rw [hrem, poll_loop_go_succ, hterm]
    refine Prod.ext_iff.mpr ⟨by simp, by simp; omega⟩

/-- C4 witness: with the second poll reporting COMPLETED the loop stops
after exactly 2 polls; with the second poll reporting FAILED it stops
after exactly 2 polls. -/
theorem C4_terminal_stops_polling_witness :
    awaitCompletion
      (fun j => if j = 1 then JobStatus.completed else JobStatus.in_progress)
      (fun _ => 0) = (.completed, 2) ∧
    awaitCompletion
      (fun j => if j = 1 then JobStatus.failed else JobStatus.in_progress)
      (fun _ => 0) = (.failed, 2) :=
  ⟨C4_terminal_stops_polling.1
      (fun j => if j = 1 then JobStatus.completed else JobStatus.in_progress)
      (fun _ => 0) 1 (by decide)
      (fun j hj => by interval_cases j; exact ⟨rfl, by decide⟩) rfl,
   C4_terminal_stops_polling.2
      (fun j => if j = 1 then JobStatus.failed else JobStatus.in_progress)
      (fun _ => 0) 1 (by decide)
      (fun j hj => by interval_cases j; exact ⟨rfl, by decide⟩) rfl⟩

/-! ## C2 — mutation error handling

The claim states that every mutation raises when the expected response
fields are missing.  True for `create_template` and `create_endpoint`,
false for `update_endpoint`, which returns the `{}` default without any
check (deploy_runpod.py:206). -/

/-- C2, counterexample: `update_endpoint` on a transport-successful
response whose body lacks the expected `data.saveEndpoint` field returns
the empty default instead of raising — refuting the claim for the
endpoint-update mutation. -/
theorem C2_counterexample :
    update_endpoint_resp ⟨200, ⟨none⟩⟩ = .ok none ∧
    ¬ ∃ e, update_endpoint_resp ⟨200, ⟨none⟩⟩ = .error e := by
  refine ⟨rfl, ?_⟩
  rintro ⟨e, h⟩
  rw [show update_endpoint_resp ⟨200, ⟨none⟩⟩ = .ok none from rfl] at h
  exact Except.noConfusion h

/-- C2, amended: all three deployment mutations run through
`_graphql_query`, which raises on any transport status `>= 400` (so each
mutation fails on transport failure); a transport-successful response
missing the template id fails `create_template`, and one missing the
endpoint data fails `create_endpoint`; but `update_endpoint` returns the
missing `saveEndpoint` field as the empty default without raising. -/
theorem C2_mutation_error_handling :
    (∀ resp : HttpResponse, 400 ≤ resp.status_code →
      (∃ e, create_template_resp resp = .error e) ∧
      (∃ e, create_endpoint_resp resp = .error e) ∧
      (∃ e, update_endpoint_resp resp = .error e)) ∧
    (∀ resp : HttpResponse, resp.status_code < 400 →
      (resp.body.data.bind (·.saveTemplateServerless)).bind (·.id) = none →
      create_template_resp resp =
        .error ⟨"Failed to create template", "Traceback: Exception"⟩) ∧
    (∀ resp : HttpResponse, resp.status_code < 400 →
      resp.body.data.bind (·.saveEndpoint) = none →
      create_endpoint_resp resp =
        .error ⟨"Failed to create endpoint", "Traceback: Exception"⟩) ∧
    (∀ resp : HttpResponse, resp.status_code < 400 →
      update_endpoint_resp resp = .ok (resp.body.data.bind (·.saveEndpoint))) := by
  refine ⟨?_, ?_, ?_, ?_⟩
  · intro resp h
    have hq : graphql_query resp = .error
        ⟨"HTTPError: " ++ toString resp.status_code,
         "Traceback: requests.exceptions.HTTPError"⟩ := by
      unfold graphql_query
      rw [if_pos h]
    refine ⟨?_, ?_, ?_⟩ <;>
      simp [create_template_resp, create_endpoint_resp, update_endpoint_resp, hq]
  · intro resp h hmiss
    have hq : graphql_query resp = .ok resp.body := by
      unfold graphql_query
      rw [if_neg (by omega)]
    simp [create_template_resp, hq, hmiss]
  · intro resp h hmiss
    have hq : graphql_query resp = .ok resp.body := by
      unfold graphql_query
      rw [if_neg (by omega)]
    simp [create_endpoint_resp, hq, hmiss]
  · intro resp h
    have hq : graphql_query resp = .ok resp.body := by
      unfold graphql_query
      rw [if_neg (by omega)]
    simp [update_endpoint_resp, hq]

/-- C2 witness: concrete responses — a 404 makes template creation fail;
a 200 body with the fields missing makes template and endpoint creation
fail; a 200 body with the field missing makes endpoint update return the
empty default. -/
theorem C2_mutation_error_handling_witness :
    (∃ e, create_template_resp ⟨404, ⟨none⟩⟩ = .error e) ∧
    create_template_resp ⟨200, ⟨none⟩⟩ =
      .error ⟨"Failed to create template", "Traceback: Exception"⟩ ∧
    create_endpoint_resp ⟨200, ⟨none⟩⟩ =
      .error ⟨"Failed to create endpoint", "Traceback: Exception"⟩ ∧
    update_endpoint_resp ⟨200, ⟨none⟩⟩ = .ok none :=
  ⟨(C2_mutation_error_handling.1 ⟨404, ⟨none⟩⟩ (by decide)).1,
   C2_mutation_error_handling.2.1 ⟨200, ⟨none⟩⟩ (by decide) rfl,
   C2_mutation_error_handling.2.2.1 ⟨200, ⟨none⟩⟩ (by decide) rfl,
   C2_mutation_error_handling.2.2.2 ⟨200, ⟨none⟩⟩ (by decide)⟩

/-! ## C5 — deploying twice onto an existing endpoint -/

/-- `find_endpoint_by_name` commutes with a name-preserving update of
every endpoint. -/
theorem find_endpoint_by_name_map (f : Endpoint → Endpoint)
    (hf : ∀ e, (f e).name = e.name) :
    ∀ (es : List Endpoint) (n : String),
      find_endpoint_by_name (es.map f) n = (find_endpoint_by_name es n).map f := by
  intro es n
  induction es with
  | nil => rfl
  | cons e es ih =>
    simp only [List.map_cons, find_endpoint_by_name, hf e]
    by_cases h : e.name = n
    · rw [if_pos h, if_pos h]
      rfl
    · rw [if_neg h, if_neg h, ih]

/-- One update-branch run of `deploy` (endpoint exists,
`update_if_exists = True`): a fresh template with the timestamped name
is created and the existing endpoint is re-pointed at it; the returned
dict carries the existing endpoint's id and URL. -/
theorem deploy_update_step (st : RemoteState) (n img : String) (w now : Nat)
    (ep : Endpoint) (hfind : find_endpoint_by_name st.endpoints n = some ep) :
    deploy st n img w true now =
      ({ id := ep.id, name := n, url := runpod_url ep.id,
         updated := some true, created := none },
       { endpoints := st.endpoints.map fun e =>
           if e.id = ep.id then
             { e with templateId := fresh_template_id st, workersMax := w }
           else e,
         templates := st.templates ++
           [⟨fresh_template_id st, n ++ "-template-" ++ toString now, img⟩] }) := by
  unfold deploy
  rw [hfind]
  rfl

/-- C5: starting from any remote state in which an endpoint named `n`
exists, two consecutive `deploy` calls with `update_if_exists = True`
(at timestamps `t1`, `t2`) both return that endpoint's id and URL
(identity preserved); each call creates one new template, named with the
call's timestamp; and afterwards the endpoint named `n` still has its
original id but points at the template created by the second call. -/
theorem C5_deploy_twice_same_endpoint
    (st : RemoteState) (n img : String) (w t1 t2 : Nat) (ep : Endpoint)
    (hfind : find_endpoint_by_name st.endpoints n = some ep) :
    ((deploy st n img w true t1).1.id = ep.id) ∧
    ((deploy (deploy st n img w true t1).2 n img w true t2).1.id = ep.id) ∧
    ((deploy st n img w true t1).1.url = runpod_url ep.id) ∧
    ((deploy (deploy st n img w true t1).2 n img w true t2).1.url =
      runpod_url ep.id) ∧
    ((deploy st n img w true t1).2.templates =
      st.templates ++
        [⟨fresh_template_id st, n ++ "-template-" ++ toString t1, img⟩]) ∧
    ((deploy (deploy st n img w true t1).2 n img w true t2).2.templates =
      st.templates ++
        [⟨fresh_template_id st, n ++ "-template-" ++ toString t1, img⟩] ++
        [⟨"tpl-" ++ toString (st.templates.length + 1),
          n ++ "-template-" ++ toString t2, img⟩]) ∧
    (find_endpoint_by_name
        (deploy (deploy st n img w true t1).2 n img w true t2).2.endpoints n =
      some { ep with templateId := "tpl-" ++ toString (st.templates.length + 1),
                     workersMax := w }) := by
  have h1 := deploy_update_step st n img w t1 ep hfind
  set f1 : Endpoint → Endpoint := fun e =>
    if e.id = ep.id then
      { e with templateId := fresh_template_id st, workersMax := w }
    else e with hf1
  have hf1name : ∀ e, (f1 e).name = e.name := by
    intro e
    by_cases h : e.id = ep.id <;> simp [hf1, h]
  have hfind1 : find_endpoint_by_name (deploy st n img w true t1).2.endpoints n =
      some (f1 ep) := by
    rw [h1]
    dsimp only
    rw [find_endpoint_by_name_map f1 hf1name st.endpoints n, hfind]
    rfl
  have hf1ep : f1 ep = { ep with templateId := fresh_template_id st,
                                 workersMax := w } := by
    simp [hf1]
  have hfid1 : fresh_template_id (deploy st n img w true t1).2 =
      "tpl-" ++ toString (st.templates.length + 1) := by
    rw [h1]
    simp [fresh_template_id]
  have h2 := deploy_update_step (deploy st n img w true t1).2 n img w t2
    (f1 ep) hfind1
  set f2 : Endpoint → Endpoint := fun e =>
    if e.id = (f1 ep).id then
      { e with templateId := fresh_template_id (deploy st n img w true t1).2,
               workersMax := w }
    else e with hf2
  have hf2name : ∀ e, (f2 e).name = e.name := by
    intro e
    by_cases h : e.id = (f1 ep).id <;> simp [hf2, h]
  refine ⟨by rw [h1], by rw [h2]; simp [hf1ep], by rw [h1],
          by rw [h2]; simp [hf1ep], by rw [h1], ?_, ?_⟩
  · rw [h2]
    dsimp only
    rw [hfid1, h1]
  · rw [h2]
    dsimp only
    rw [find_endpoint_by_name_map f2 hf2name _ n, hfind1]
    have hcomp : f2 (f1 ep) =
        { ep with templateId := "tpl-" ++ toString (st.templates.length + 1),
                  workersMax := w } := by
      simp [hf2, hf1ep, hfid1]
    show some (f2 (f1 ep)) = _
    rw [hcomp]

/-- C5 witness: a concrete account with one endpoint named
`chandra-ocr`; two deploys at timestamps 10 and 20 both return id `ep0`,
two templates are created, and the endpoint ends up on the second one. -/
theorem C5_deploy_twice_same_endpoint_witness :
    ((deploy ⟨[⟨"ep0", "chandra-ocr", "tpl-old", 1⟩], []⟩
        "chandra-ocr" "img:latest" 3 true 10).1.id = "ep0") ∧
    ((deploy (deploy ⟨[⟨"ep0", "chandra-ocr", "tpl-old", 1⟩], []⟩
        "chandra-ocr" "img:latest" 3 true 10).2
        "chandra-ocr" "img:latest" 3 true 20).1.id = "ep0") ∧
    ((deploy (deploy ⟨[⟨"ep0", "chandra-ocr", "tpl-old", 1⟩], []⟩
        "chandra-ocr" "img:latest" 3 true 10).2
        "chandra-ocr" "img:latest" 3 true 20).2.templates =
      [⟨"tpl-0", "chandra-ocr-template-10", "img:latest"⟩,
       ⟨"tpl-1", "chandra-ocr-template-20", "img:latest"⟩]) :=
  ⟨(C5_deploy_twice_same_endpoint ⟨[⟨"ep0", "chandra-ocr", "tpl-old", 1⟩], []⟩
      "chandra-ocr" "img:latest" 3 10 20 ⟨"ep0", "chandra-ocr", "tpl-old", 1⟩
      (by simp [find_endpoint_by_name])).1,
   (C5_deploy_twice_same_endpoint ⟨[⟨"ep0", "chandra-ocr", "tpl-old", 1⟩], []⟩
      "chandra-ocr" "img:latest" 3 10 20 ⟨"ep0", "chandra-ocr", "tpl-old", 1⟩
      (by simp [find_endpoint_by_name])).2.1,
   (C5_deploy_twice_same_endpoint ⟨[⟨"ep0", "chandra-ocr", "tpl-old", 1⟩], []⟩
      "chandra-ocr" "img:latest" 3 10 20 ⟨"ep0", "chandra-ocr", "tpl-old", 1⟩
      (by simp [find_endpoint_by_name])).2.2.2.2.2.1⟩

/-! ## Handler lemmas -/

/-- The per-item loop fails with the 1-based index of the first failing
item when every earlier item decodes successfully. -/
theorem load_inputs_from_first_error (label : String)
    (step : FileData → Except PyErr (List Img)) :
    ∀ (pre : List FileData) (i : Nat) (f : FileData) (post : List FileData)
      (e : PyErr),
      (∀ g ∈ pre, ∃ v, step g = .ok v) →
      step f = .error e →
      load_inputs_from label step i (pre ++ f :: post) =
        .error (label ++ toString (i + pre.length + 1) ++ ": " ++ e.msg) := by
  intro pre
  induction pre with
  | nil =>
    intro i f post e _ hf
    simp [load_inputs_from, hf]
  | cons g gs ih =>
    intro i f post e hok hf
    obtain ⟨v, hg⟩ := hok g (List.mem_cons_self g gs)
    simp only [List.cons_append, load_inputs_from, hg, List.append_eq]
    rw [ih (i + 1) f post e (fun x hx => hok x (List.mem_cons_of_mem g hx)) hf]
    simp only [List.length_cons]
    have harith : i + 1 + gs.length = i + (gs.length + 1) := by omega
    rw [harith]

theorem serialize_from_length :
    ∀ (rs : List PageResult) (k : Nat), (serialize_from k rs).length = rs.length := by
  intro rs
  induction rs with
  | nil => intro k; rfl
  | cons r rs ih => intro k; simp [serialize_from, ih]

theorem serialize_from_get :
    ∀ (rs : List PageResult) (k i : Nat) (h : i < (serialize_from k rs).length),
      ((serialize_from k rs).get ⟨i, h⟩).page_number = k + i + 1 := by
  intro rs
  induction rs with
  | nil => intro k i h; simp [serialize_from] at h
  | cons r rs ih =>
    intro k i h
    cases i with
    | zero => rfl
    | succ n =>
      have h' : n < (serialize_from (k + 1) rs).length := by
        simpa [serialize_from] using h
      have := ih (k + 1) n h'
      calc ((serialize_from k (r :: rs)).get ⟨n + 1, h⟩).page_number
          = ((serialize_from (k + 1) rs).get ⟨n, h'⟩).page_number := rfl
        _ = k + 1 + n + 1 := this
        _ = k + (n + 1) + 1 := by omega

/-- Every run of `handler` ends in one of three dict shapes: the success
dict built by serialization, an early-return error dict, or the outer
`except` dict carrying message and traceback. -/
theorem handler_cases
    (decode : FileData → Option (List Nat) → Except PyErr (List Img))
    (gen : Img → Except PyErr (List PageResult)) (input? : Option JobInput) :
    (∃ res, handler decode gen input? =
      { results := some (serialize_from 0 res),
        total_pages := some (serialize_from 0 res).length,
        total_tokens := some ((serialize_from 0 res).map (·.token_count)).sum,
        error := none, traceback := none }) ∨
    (∃ m, handler decode gen input? =
      { results := none, total_pages := none, total_tokens := none,
        error := some m, traceback := none }) ∨
    (∃ e : PyErr, handler decode gen input? =
      { results := none, total_pages := none, total_tokens := none,
        error := some e.msg, traceback := some e.tb }) := by
  rcases hfd : files_data (input?.getD emptyJobInput) with _ | fd
  · right; left
    exact ⟨noFileMsg, by simp [handler, handler_try, hfd]⟩
  · rcases hload : load_files_from
        (fun f => decode f (input?.getD emptyJobInput).page_range) 0 fd with m | imgs
    · right; left
      exact ⟨m, by simp [handler, handler_try, hfd, hload]⟩
    · rcases hinf : run_inference gen imgs with e | res
      · right; right
        exact ⟨e, by simp [handler, handler_try, hfd, hload, hinf]⟩
      · left
        exact ⟨res, by simp [handler, handler_try, hfd, hload, hinf]⟩

/-- Same classification for the simplified image-only handler. -/
theorem handler_simplified_cases
    (decode : FileData → Except PyErr Img)
    (gen : Img → Except PyErr (List PageResult)) (input? : Option JobInputS) :
    (∃ res, handler_simplified decode gen input? =
      { results := some (serialize_from 0 res),
        total_pages := some (serialize_from 0 res).length,
        total_tokens := some ((serialize_from 0 res).map (·.token_count)).sum,
        error := none, traceback := none }) ∨
    (∃ m, handler_simplified decode gen input? =
      { results := none, total_pages := none, total_tokens := none,
        error := some m, traceback := none }) ∨
    (∃ e : PyErr, handler_simplified decode gen input? =
      { results := none, total_pages := none, total_tokens := none,
        error := some e.msg, traceback := some e.tb }) := by
  rcases hfd : images_data (input?.getD emptyJobInputS) with _ | ds
  · right; left
    exact ⟨noImageMsg, by simp [handler_simplified, handler_simplified_try, hfd]⟩
  · rcases hload : load_images_from decode 0 ds with m | imgs
    · right; left
      exact ⟨m, by
        simp [handler_simplified, handler_simplified_try, hfd, hload]⟩
    · rcases hinf : run_inference gen imgs with e | res
      · right; right
        exact ⟨e, by
          simp [handler_simplified, handler_simplified_try, hfd, hload, hinf]⟩
      · left
        exact ⟨res, by
          simp [handler_simplified, handler_simplified_try, hfd, hload, hinf]⟩

/-! ## C7 — ordered input-source dispatch -/

/-- C7: the handler's input dispatch is ordered first-match over
`file`, `files`, `image`, `images` — whenever an earlier field is
present, later ones are ignored — and with none of the four present the
handler returns the validation-error dict without invoking the decode or
inference oracles (the result is the same for every `decode`/`gen`). -/
theorem C7_dispatch_first_match_wins :
    (∀ (j : JobInput) f, j.file = some f → files_data j = some [f]) ∧
    (∀ (j : JobInput) fs, j.file = none → j.files = some fs →
      files_data j = some fs) ∧
    (∀ (j : JobInput) f, j.file = none → j.files = none → j.image = some f →
      files_data j = some [f]) ∧
    (∀ (j : JobInput) fs, j.file = none → j.files = none → j.image = none →
      j.images = some fs → files_data j = some fs) ∧
    (∀ j : JobInput, j.file = none → j.files = none → j.image = none →
      j.images = none → files_data j = none) ∧
    (∀ decode gen (j : JobInput), files_data j = none →
      handler decode gen (some j) =
        { results := none, total_pages := none, total_tokens := none,
          error := some noFileMsg, traceback := none }) := by
  refine ⟨?_, ?_, ?_, ?_, ?_, ?_⟩
  · intro j f h
    unfold files_data
    rw [h]
  · intro j fs h1 h2
    unfold files_data
    rw [h1, h2]
  · intro j f h1 h2 h3
    unfold files_data
    rw [h1, h2, h3]
  · intro j fs h1 h2 h3 h4
    unfold files_data
    rw [h1, h2, h3, h4]
  · intro j h1 h2 h3 h4
    unfold files_data
    rw [h1, h2, h3, h4]
  · intro decode gen j h
    simp [handler, handler_try, h]

/-- C7 witness: with all four fields present the `file` field wins; with
only the legacy `image` field present it is used; with none present the
validation-error dict is returned for a concrete pair of oracles. -/
theorem C7_dispatch_first_match_wins_witness :
    files_data ⟨some ⟨0⟩, some [⟨1⟩], some ⟨2⟩, some [⟨3⟩], none⟩ = some [⟨0⟩] ∧
    files_data ⟨none, none, some ⟨2⟩, some [⟨3⟩], none⟩ = some [⟨2⟩] ∧
    handler (fun _ _ => .ok [⟨7⟩]) (fun _ => .ok [⟨"md", 1, false⟩])
        (some ⟨none, none, none, none, none⟩) =
      { results := none, total_pages := none, total_tokens := none,
        error := some noFileMsg, traceback := none } :=
  ⟨C7_dispatch_first_match_wins.1 ⟨some ⟨0⟩, some [⟨1⟩], some ⟨2⟩, some [⟨3⟩], none⟩
      ⟨0⟩ rfl,
   C7_dispatch_first_match_wins.2.2.1 ⟨none, none, some ⟨2⟩, some [⟨3⟩], none⟩
      ⟨2⟩ rfl rfl rfl,
   C7_dispatch_first_match_wins.2.2.2.2.2 (fun _ _ => .ok [⟨7⟩])
      (fun _ => .ok [⟨"md", 1, false⟩]) ⟨none, none, none, none, none⟩ rfl⟩

/-! ## C6 — first decode failure aborts the whole batch -/

/-- C6: in both handlers, when every file before index `i` (0-based)
decodes successfully and the file at index `i` raises, the handler
returns a single error dict whose message names the 1-based index
`i + 1`; no `results` key is present, and the loop's outcome does not
depend on the items after the failing one (any tail `post'` yields the
same outcome). -/
theorem C6_first_failure_aborts_batch :
    (∀ (decode : FileData → Option (List Nat) → Except PyErr (List Img))
       (gen : Img → Except PyErr (List PageResult)) (j : JobInput)
       (pre : List FileData) (f : FileData) (post : List FileData) (e : PyErr),
      files_data j = some (pre ++ f :: post) →
      (∀ g ∈ pre, ∃ v, decode g j.page_range = .ok v) →
      decode f j.page_range = .error e →
      handler decode gen (some j) =
        { results := none, total_pages := none, total_tokens := none,
          error := some ("Failed to process file " ++ toString (pre.length + 1)
                         ++ ": " ++ e.msg),
          traceback := none } ∧
      (∀ post', load_files_from (fun g => decode g j.page_range) 0
          (pre ++ f :: post') =
        load_files_from (fun g => decode g j.page_range) 0 (pre ++ f :: post))) ∧
    (∀ (decode : FileData → Except PyErr Img)
       (gen : Img → Except PyErr (List PageResult)) (j : JobInputS)
       (pre : List FileData) (f : FileData) (post : List FileData) (e : PyErr),
      images_data j = some (pre ++ f :: post) →
      (∀ g ∈ pre, ∃ v, decode g = .ok v) →
      decode f = .error e →
      handler_simplified decode gen (some j) =
        { results := none, total_pages := none, total_tokens := none,
          error := some ("Failed to process image " ++ toString (pre.length + 1)
                         ++ ": " ++ e.msg),
          traceback := none } ∧
      (∀ post', load_images_from decode 0 (pre ++ f :: post') =
        load_images_from decode 0 (pre ++ f :: post))) := by
  constructor
  · intro decode gen j pre f post e hdisp hok hf
    have key : ∀ post0,
        load_files_from (fun g => decode g j.page_range) 0 (pre ++ f :: post0) =
          .error ("Failed to process file " ++ toString (pre.length + 1)
                  ++ ": " ++ e.msg) := by
      intro post0
      have := load_inputs_from_first_error ("Failed to process file ")
        (fun g => decode g j.page_range) pre 0 f post0 e hok hf
      simpa [load_files_from] using this
    refine ⟨?_, fun post' => by rw [key post', key post]⟩
    simp [handler, handler_try, hdisp, key post]
  · intro decode gen j pre f post e hdisp hok hf
    have key : ∀ post0,
        load_images_from decode 0 (pre ++ f :: post0) =
          .error ("Failed to process image " ++ toString (pre.length + 1)
                  ++ ": " ++ e.msg) := by
      intro post0
      have := load_inputs_from_first_error ("Failed to process image ")
        (fun d => (decode d).map (fun img => [img])) pre 0 f post0 e
        (fun g hg => by
          obtain ⟨v, hg'⟩ := hok g hg
          exact ⟨[v], by simp [hg', Except.map]⟩)
        (by simp [hf, Except.map])
      simpa [load_images_from] using this
    refine ⟨?_, fun post' => by rw [key post', key post]⟩
    simp [handler_simplified, handler_simplified_try, hdisp, key post]

/-- C6 witness: a three-file batch whose second file fails to decode
yields the error dict naming file 2 in both handlers, independently of
the third file. -/
theorem C6_first_failure_aborts_batch_witness :
    handler
        (fun fd _ => if fd.id = 0 then .ok [⟨10⟩]
                     else .error ⟨"bad base64", "tb"⟩)
        (fun _ => .ok [⟨"md", 1, false⟩])
        (some ⟨none, some [⟨0⟩, ⟨1⟩, ⟨2⟩], none, none, none⟩) =
      { results := none, total_pages := none, total_tokens := none,
        error := some ("Failed to process file " ++ toString 2
                       ++ ": " ++ "bad base64"),
        traceback := none } ∧
    handler_simplified
        (fun fd => if fd.id = 0 then .ok ⟨10⟩
                   else .error ⟨"bad image", "tb"⟩)
        (fun _ => .ok [⟨"md", 1, false⟩])
        (some ⟨none, some [⟨0⟩, ⟨1⟩, ⟨2⟩]⟩) =
      { results := none, total_pages := none, total_tokens := none,
        error := some ("Failed to process image " ++ toString 2
                       ++ ": " ++ "bad image"),
        traceback := none } :=
  ⟨(C6_first_failure_aborts_batch.1
      (fun fd _ => if fd.id = 0 then .ok [⟨10⟩]
                   else .error ⟨"bad base64", "tb"⟩)
      (fun _ => .ok [⟨"md", 1, false⟩])
      ⟨none, some [⟨0⟩, ⟨1⟩, ⟨2⟩], none, none, none⟩
      [⟨0⟩] ⟨1⟩ [⟨2⟩] ⟨"bad base64", "tb"⟩ rfl
      (fun g hg => by
        simp only [List.mem_singleton] at hg
        exact ⟨[⟨10⟩], by simp [hg]⟩)
      rfl).1,
   (C6_first_failure_aborts_batch.2
      (fun fd => if fd.id = 0 then .ok ⟨10⟩
                 else .error ⟨"bad image", "tb"⟩)
      (fun _ => .ok [⟨"md", 1, false⟩])
      ⟨none, some [⟨0⟩, ⟨1⟩, ⟨2⟩]⟩
      [⟨0⟩] ⟨1⟩ [⟨2⟩] ⟨"bad image", "tb"⟩ rfl
      (fun g hg => by
        simp only [List.mem_singleton] at hg
        exact ⟨⟨10⟩, by simp [hg]⟩)
      rfl).1⟩

/-! ## C9 — the handler is total and errors are structured -/

/-- C9: for every input event and every behaviour of the decode and
inference oracles (including raising ones), both handlers return a dict
that is either success-shaped (a `results` key and no `error` key) or
error-shaped (an `error` key and no `results` key) — never an escaping
exception, which in this embedding is visible as the handlers being
total functions into `HandlerResult`; and whenever the body raises
(`handler_try` returns an exception), the returned dict carries both the
exception message and its traceback. -/
theorem C9_handler_total_structured_errors :
    (∀ (decode : FileData → Option (List Nat) → Except PyErr (List Img))
       (gen : Img → Except PyErr (List PageResult)) (input? : Option JobInput),
      ((handler decode gen input?).results.isSome ∧
        (handler decode gen input?).error = none) ∨
      ((handler decode gen input?).error.isSome ∧
        (handler decode gen input?).results = none)) ∧
    (∀ (decode : FileData → Option (List Nat) → Except PyErr (List Img))
       (gen : Img → Except PyErr (List PageResult)) (input? : Option JobInput)
       (e : PyErr),
      handler_try decode gen input? = .error e →
      handler decode gen input? =
        { results := none, total_pages := none, total_tokens := none,
          error := some e.msg, traceback := some e.tb }) ∧
    (∀ (decode : FileData → Except PyErr Img)
       (gen : Img → Except PyErr (List PageResult)) (input? : Option JobInputS),
      ((handler_simplified decode gen input?).results.isSome ∧
        (handler_simplified decode gen input?).error = none) ∨
      ((handler_simplified decode gen input?).error.isSome ∧
        (handler_simplified decode gen input?).results = none)) ∧
    (∀ (decode : FileData → Except PyErr Img)
       (gen : Img → Except PyErr (List PageResult)) (input? : Option JobInputS)
       (e : PyErr),
      handler_simplified_try decode gen input? = .error e →
      handler_simplified decode gen input? =
        { results := none, total_pages := none, total_tokens := none,
          error := some e.msg, traceback := some e.tb }) := by
  refine ⟨?_, ?_, ?_, ?_⟩
  · intro decode gen input?
    rcases handler_cases decode gen input? with ⟨res, h⟩ | ⟨m, h⟩ | ⟨e, h⟩ <;>
      rw [h] <;> simp
  · intro decode gen input? e h
    unfold handler
    rw [h]
  · intro decode gen input?
    rcases handler_simplified_cases decode gen input? with ⟨res, h⟩ | ⟨m, h⟩ | ⟨e, h⟩ <;>
      rw [h] <;> simp
  · intro decode gen input? e h
    unfold handler_simplified
    rw [h]

/-- C9 witness: an inference oracle that raises makes both handlers
return the error dict with the exception's message and traceback. -/
theorem C9_handler_total_structured_errors_witness :
    handler (fun _ _ => .ok [⟨0⟩]) (fun _ => .error ⟨"boom", "tb-boom"⟩)
        (some ⟨some ⟨0⟩, none, none, none, none⟩) =
      { results := none, total_pages := none, total_tokens := none,
        error := some "boom", traceback := some "tb-boom" } ∧
    handler_simplified (fun _ => .ok ⟨0⟩) (fun _ => .error ⟨"boom2", "tb2"⟩)
        (some ⟨some ⟨0⟩, none⟩) =
      { results := none, total_pages := none, total_tokens := none,
        error := some "boom2", traceback := some "tb2" } :=
  ⟨C9_handler_total_structured_errors.2.1 (fun _ _ => .ok [⟨0⟩])
      (fun _ => .error ⟨"boom", "tb-boom"⟩)
      (some ⟨some ⟨0⟩, none, none, none, none⟩) ⟨"boom", "tb-boom"⟩ rfl,
   C9_handler_total_structured_errors.2.2.2 (fun _ => .ok ⟨0⟩)
      (fun _ => .error ⟨"boom2", "tb2"⟩)
      (some ⟨some ⟨0⟩, none⟩) ⟨"boom2", "tb2"⟩ rfl⟩

/-! ## C10 — invariants of the success output -/

/-- C10: in both handlers, every success output has its `i`-th result
(0-based) carrying `page_number = i + 1`, `total_pages` equal to the
length of `results`, and `total_tokens` equal to the sum of the results'
`token_count` fields; a success output has no `error` key, and an error
output has no `results` key. -/
theorem C10_success_output_invariants :
    (∀ (decode : FileData → Option (List Nat) → Except PyErr (List Img))
       (gen : Img → Except PyErr (List PageResult)) (input? : Option JobInput)
       (rs : List PageOut),
      (handler decode gen input?).results = some rs →
      (∀ i (h : i < rs.length), (rs.get ⟨i, h⟩).page_number = i + 1) ∧
      (handler decode gen input?).total_pages = some rs.length ∧
      (handler decode gen input?).total_tokens =
        some (rs.map (·.token_count)).sum ∧
      (handler decode gen input?).error = none) ∧
    (∀ (decode : FileData → Option (List Nat) → Except PyErr (List Img))
       (gen : Img → Except PyErr (List PageResult)) (input? : Option JobInput),
      (handler decode gen input?).error.isSome →
      (handler decode gen input?).results = none) ∧
    (∀ (decode : FileData → Except PyErr Img)
       (gen : Img → Except PyErr (List PageResult)) (input? : Option JobInputS)
       (rs : List PageOut),
      (handler_simplified decode gen input?).results = some rs →
      (∀ i (h : i < rs.length), (rs.get ⟨i, h⟩).page_number = i + 1) ∧
      (handler_simplified decode gen input?).total_pages = some rs.length ∧
      (handler_simplified decode gen input?).total_tokens =
        some (rs.map (·.token_count)).sum ∧
      (handler_simplified decode gen input?).error = none) ∧
    (∀ (decode : FileData → Except PyErr Img)
       (gen : Img → Except PyErr (List PageResult)) (input? : Option JobInputS),
      (handler_simplified decode gen input?).error.isSome →
      (handler_simplified decode gen input?).results = none) := by
  refine ⟨?_, ?_, ?_, ?_⟩
  · intro decode gen input? rs hres
    rcases handler_cases decode gen input? with ⟨res, h⟩ | ⟨m, h⟩ | ⟨e, h⟩
    · rw [h] at hres
      have hse : serialize_from 0 res = rs := by simpa using hres
      subst hse
      refine ⟨?_, by rw [h], by rw [h], by rw [h]⟩
      intro i hi
      simpa using serialize_from_get res 0 i hi
    · rw [h] at hres
      simp at hres
    · rw [h] at hres
      simp at hres
  · intro decode gen input? herr
    rcases handler_cases decode gen input? with ⟨res, h⟩ | ⟨m, h⟩ | ⟨e, h⟩
    · rw [h] at herr
      simp at herr
    · rw [h]
    · rw [h]
  · intro decode gen input? rs hres
    rcases handler_simplified_cases decode gen input? with ⟨res, h⟩ | ⟨m, h⟩ | ⟨e, h⟩
    · rw [h] at hres
      have hse : serialize_from 0 res = rs := by simpa using hres
      subst hse
      refine ⟨?_, by rw [h], by rw [h], by rw [h]⟩
      intro i hi
      simpa using serialize_from_get res 0 i hi
    · rw [h] at hres
      simp at hres
    · rw [h] at hres
      simp at hres
  · intro decode gen input? herr
    rcases handler_simplified_cases decode gen input? with ⟨res, h⟩ | ⟨m, h⟩ | ⟨e, h⟩
    · rw [h] at herr
      simp at herr
    · rw [h]
    · rw [h]

/-- C10 witness: a two-page success run has page numbers 1 and 2,
`total_pages = 2`, `total_tokens = 10`, no `error` key; and an error run
(no input field) has no `results` key. -/
theorem C10_success_output_invariants_witness :
    (handler (fun _ _ => .ok [⟨0⟩, ⟨1⟩]) (fun _ => .ok [⟨"md", 5, false⟩])
        (some ⟨some ⟨9⟩, none, none, none, none⟩)).total_pages = some 2 ∧
    (handler (fun _ _ => .ok [⟨0⟩, ⟨1⟩]) (fun _ => .ok [⟨"md", 5, false⟩])
        (some ⟨some ⟨9⟩, none, none, none, none⟩)).total_tokens = some 10 ∧
    (handler (fun _ _ => .ok [⟨0⟩, ⟨1⟩]) (fun _ => .ok [⟨"md", 5, false⟩])
        (some ⟨some ⟨9⟩, none, none, none, none⟩)).error = none ∧
    (([⟨1, "md", 5, false⟩, ⟨2, "md", 5, false⟩] : List PageOut).get
        ⟨1, by decide⟩).page_number = 2 ∧
    (handler (fun _ _ => .ok [⟨0⟩, ⟨1⟩]) (fun _ => .ok [⟨"md", 5, false⟩])
        (some ⟨none, none, none, none, none⟩)).results = none :=
  ⟨(C10_success_output_invariants.1 (fun _ _ => .ok [⟨0⟩, ⟨1⟩])
      (fun _ => .ok [⟨"md", 5, false⟩]) (some ⟨some ⟨9⟩, none, none, none, none⟩)
      [⟨1, "md", 5, false⟩, ⟨2, "md", 5, false⟩] rfl).2.1,
   (C10_success_output_invariants.1 (fun _ _ => .ok [⟨0⟩, ⟨1⟩])
      (fun _ => .ok [⟨"md", 5, false⟩]) (some ⟨some ⟨9⟩, none, none, none, none⟩)
      [⟨1, "md", 5, false⟩, ⟨2, "md", 5, false⟩] rfl).2.2.1,
   (C10_success_output_invariants.1 (fun _ _ => .ok [⟨0⟩, ⟨1⟩])
      (fun _ => .ok [⟨"md", 5, false⟩]) (some ⟨some ⟨9⟩, none, none, none, none⟩)
      [⟨1, "md", 5, false⟩, ⟨2, "md", 5, false⟩] rfl).2.2.2,
   (C10_success_output_invariants.1 (fun _ _ => .ok [⟨0⟩, ⟨1⟩])
      (fun _ => .ok [⟨"md", 5, false⟩]) (some ⟨some ⟨9⟩, none, none, none, none⟩)
      [⟨1, "md", 5, false⟩, ⟨2, "md", 5, false⟩] rfl).1 1 (by decide),
   C10_success_output_invariants.2.1 (fun _ _ => .ok [⟨0⟩, ⟨1⟩])
      (fun _ => .ok [⟨"md", 5, false⟩]) (some ⟨none, none, none, none, none⟩)
      rfl⟩

end Chandra
